import Mathlib

/-!
Shallow embedding of the whisper-push session controller
(`src/whisper_push.py` CLI and `src/macos/menubar-daemon.py` daemon),
with theorems checking the natural-language specification against it.

Effectful calls (subprocess spawns, signals, clipboard, notifications,
sounds) are modelled by explicit state threading and output traces;
the filesystem is the pair (lock-file content, audio-artifact size);
process liveness is an oracle `sig : Nat → Bool` standing for whether
`os.kill(pid, 0)` succeeds.
-/

namespace WhisperPush

/-! ## Strings: Python `str.strip()` and `int()` -/

/-- The whitespace characters stripped by Python `str.strip()`
(restricted to the ASCII whitespace set). -/
def isWs (c : Char) : Bool :=
  c == ' ' || c == '\t' || c == '\n' || c == '\r' || c == '\x0b' || c == '\x0c'

/-- Drop trailing whitespace. -/
def dropTrailing (l : List Char) : List Char :=
  (l.reverse.dropWhile isWs).reverse

/-- Python `str.strip()` on the character list: drop whitespace from both ends. -/
def stripChars (l : List Char) : List Char :=
  dropTrailing (l.dropWhile isWs)

/-- Python `str.strip()`. -/
def pystrip (s : String) : String := ⟨stripChars s.data⟩

/-- Numeric value of a decimal digit character. -/
def digitVal (c : Char) : Nat := c.toNat - 48

/-- Value of a decimal digit string, most significant digit first. -/
def digitsToNat (l : List Char) : Nat := l.foldl (fun a c => 10 * a + digitVal c) 0

/-- Models `int(content.strip())` as used on the lock file: strip the content,
then accept a non-empty all-digit string (the shape the program itself writes;
`none` stands for `ValueError`). -/
def parsePid (s : String) : Option Nat :=
  let t := stripChars s.data
  if t ≠ [] ∧ t.all Char.isDigit then some (digitsToNat t) else none

/-- Decimal digits of `n`, fuelled structurally so that it evaluates. -/
def natDigitsAux : Nat → Nat → List Char
  | 0, _ => []
  | fuel + 1, n =>
    if n < 10 then [Nat.digitChar n]
    else natDigitsAux fuel (n / 10) ++ [Nat.digitChar (n % 10)]

/-- Python `str(pid)`: the decimal rendering written into the lock file. -/
def pidStr (n : Nat) : String := ⟨natDigitsAux (n + 1) n⟩

/-! ## Filesystem and configuration -/

/-- The two runtime files the CLI touches: the lock file (its text content,
when it exists) and the audio artifact (its size in bytes, when it exists). -/
structure FS where
  lockFile : Option String
  audioFile : Option Nat
deriving DecidableEq

/-- The configuration keys consumed by the modelled control flow
(`DEFAULT_CONFIG` plus file/CLI overrides). -/
structure Config where
  language : String
  notifications : Bool
  sound_feedback : Bool
  beam_size : Nat
  debug : Bool
deriving DecidableEq

/-! ## RecordingLock: `is_recording` -/

/-- `is_recording()`: no lock file means idle; otherwise parse the pid and
probe it with `os.kill(pid, 0)` (the oracle `sig`); on parse failure or a
non-signalable pid, delete the lock file and report idle. -/
def is_recording (sig : Nat → Bool) (fs : FS) : Bool × FS :=
  match fs.lockFile with
  | none => (false, fs)
  | some content =>
    match parsePid content with
    | none => (false, { fs with lockFile := none })
    | some pid =>
      if sig pid then (true, fs) else (false, { fs with lockFile := none })

/-! ## AudioCapture: `start_recording`, `stop_recording` -/

/-- Result of `start_recording`. -/
structure StartOutcome where
  fs : FS
  sounds : List String
  notifications : List String
deriving DecidableEq

/-- `start_recording(config)`: unlink any stale artifact, spawn `pw-record`
(whose OS-assigned pid is `capturePid`; `selfPid` is the controller process's
own pid, which the code never writes anywhere), write the capture pid into
the lock file, then play/notify per config. -/
def start_recording (cfg : Config) (selfPid capturePid : Nat) (fs : FS) :
    StartOutcome :=
  let fs1 : FS := { fs with audioFile := none }
  let fs2 : FS := { fs1 with lockFile := some (pidStr capturePid) }
  { fs := fs2
    sounds := if cfg.sound_feedback then ["start"] else []
    notifications := if cfg.notifications then ["Recording..."] else [] }

/-- The bounded wait loop of `stop_recording`: `for _ in range(fuel)` sleep
100 ms then probe `os.kill(pid, 0)`; `obs i` says whether the capture process
is still alive at the i-th probe; the loop breaks on the first dead probe.
Returns the number of probes performed. -/
def pollCount (obs : Nat → Bool) : Nat → Nat → Nat
  | 0, _ => 0
  | fuel + 1, i => if obs i then 1 + pollCount obs fuel (i + 1) else 1

/-- `AUDIO_FILE.exists() and AUDIO_FILE.stat().st_size > 44`. -/
def audioViable (fs : FS) : Bool :=
  match fs.audioFile with
  | none => false
  | some sz => decide (44 < sz)

/-- Result of `stop_recording`. -/
structure StopOutcome where
  viable : Bool
  fs : FS
  signaled : Bool
  polls : Nat
  notifications : List String
deriving DecidableEq

/-- `stop_recording(config)`: no lock file means return `False` at once;
otherwise parse the pid, send SIGINT when signalable and poll exit up to 20
times, swallow parse/lookup errors, and in every case delete the lock file,
notify "Processing...", and report whether the artifact is viable. -/
def stop_recording (cfg : Config) (sig obs : Nat → Bool) (fs : FS) :
    StopOutcome :=
  match fs.lockFile with
  | none =>
    { viable := false, fs := fs, signaled := false, polls := 0
      notifications := [] }
  | some content =>
    let sp : Bool × Nat :=
      match parsePid content with
      | none => (false, 0)
      | some pid => if sig pid then (true, pollCount obs 20 0) else (false, 0)
    let fs1 : FS := { fs with lockFile := none }
    { viable := audioViable fs1
      fs := fs1
      signaled := sp.1
      polls := sp.2
      notifications := if cfg.notifications then ["Processing..."] else [] }

/-! ## TranscriptionStream and PasteSink -/

/-- One engine invocation: the raw segment texts the engine yielded before
the stream ended, and whether it ended with an engine error (an exception
raised by the iterator after the listed segments were already consumed). -/
structure EngineRun where
  yielded : List String
  failed : Bool
deriving DecidableEq

/-- `transcribe_segments`: strip each raw engine segment and yield only the
non-empty results, in order. -/
def transcribe_segments (raw : List String) : List String :=
  raw.filterMap (fun s => let t := pystrip s; if t = "" then none else some t)

/-- The texts handed to `_paste_text`, in order: the first segment verbatim,
every later one prefixed with a single separating space. -/
def pasteTexts : List String → List String
  | [] => []
  | s :: rest => s :: rest.map (fun t => " " ++ t)

/-- The `finally` block of `transcribe_and_type`: `if old_clipboard:` restore
it, else leave the clipboard as the pastes left it. -/
def restoreClipboard (old cur : String) : String :=
  if old ≠ "" then old else cur

/-- Observable outcome of `transcribe_and_type`: the paste-call trace, the
final clipboard content, and the returned full text (`none` models the
engine exception propagating to the caller). -/
structure PasteTrace where
  pastes : List String
  clipboard : String
  result : Option String
deriving DecidableEq

/-- `transcribe_and_type(config)`: snapshot the clipboard (`clip0`), paste
each yielded segment (each `_paste_text` sets the clipboard to its text),
and in a `finally` block restore the snapshot when it was non-empty; on
success return the segments joined by single spaces. -/
def transcribe_and_type (clip0 : String) (run : EngineRun) : PasteTrace :=
  let segs := transcribe_segments run.yielded
  let ps := pasteTexts segs
  { pastes := ps
    clipboard := restoreClipboard clip0 (ps.getLast?.getD clip0)
    result := if run.failed then none else some (String.intercalate " " segs) }

/-! ## SessionController: the CLI `main` branches -/

/-- `(text[:50] + "...") if len(text) > 50 else text`. -/
def previewText (text : String) : String :=
  if text.length > 50 then text.take 50 ++ "..." else text

/-- Observable outcome of one toggle CLI invocation. -/
structure ToggleOutcome where
  startedCapture : Bool
  stoppedViaLock : Bool
  transcribeCalls : Nat
  pastes : List String
  clipboard : String
  notifications : List String
  sounds : List String
  fs : FS
  exitCode : Nat
deriving DecidableEq

/-- The toggle branch of `main()`: consult the lock via `is_recording`; when
held, run `stop_recording` and, only if the artifact is viable, drive
`transcribe_and_type` (notifying the typed preview, or "No speech detected"
on empty text, or an error with exit code 1 on an engine exception, and in
the `finally` unlinking the artifact); when the lock is not held, start a
new recording. -/
def cliToggle (cfg : Config) (selfPid capturePid : Nat) (sig obs : Nat → Bool)
    (run : EngineRun) (clip0 : String) (fs : FS) : ToggleOutcome :=
  let r := is_recording sig fs
  if r.1 then
    let st := stop_recording cfg sig obs r.2
    if st.viable then
      let tt := transcribe_and_type clip0 run
      let fs2 : FS := { st.fs with audioFile := none }
      match tt.result with
      | none =>
        { startedCapture := false, stoppedViaLock := true, transcribeCalls := 1
          pastes := tt.pastes, clipboard := tt.clipboard
          notifications := st.notifications ++ ["Error"], sounds := []
          fs := fs2, exitCode := 1 }
      | some text =>
        if text ≠ "" then
          { startedCapture := false, stoppedViaLock := true, transcribeCalls := 1
            pastes := tt.pastes, clipboard := tt.clipboard
            notifications := st.notifications ++
              (if cfg.notifications then ["Typed: " ++ previewText text] else [])
            sounds := if cfg.sound_feedback then ["stop"] else []
            fs := fs2, exitCode := 0 }
        else
          { startedCapture := false, stoppedViaLock := true, transcribeCalls := 1
            pastes := tt.pastes, clipboard := tt.clipboard
            notifications := st.notifications ++
              (if cfg.notifications then ["No speech detected"] else [])
            sounds := []
            fs := fs2, exitCode := 0 }
    else
      { startedCapture := false, stoppedViaLock := true, transcribeCalls := 0
        pastes := [], clipboard := clip0
        notifications := st.notifications, sounds := []
        fs := st.fs, exitCode := 0 }
  else
    let so := start_recording cfg selfPid capturePid r.2
    { startedCapture := true, stoppedViaLock := false, transcribeCalls := 0
      pastes := [], clipboard := clip0
      notifications := so.notifications, sounds := so.sounds
      fs := so.fs, exitCode := 0 }

/-- Observable outcome of `main()` with `--stop`. -/
structure ForceStopOutcome where
  fs : FS
  notifications : List String
  transcribeCalls : Nat
  pastes : List String
  signaled : Bool
deriving DecidableEq

/-- The `--stop` branch of `main()`: if the lock reports a recording in
progress, run the same `stop_recording` path (its returned viability is
discarded) and notify "Recording cancelled"; no transcription, no paste. -/
def cliForceStop (cfg : Config) (sig obs : Nat → Bool) (fs : FS) :
    ForceStopOutcome :=
  let r := is_recording sig fs
  if r.1 then
    let st := stop_recording cfg sig obs r.2
    { fs := st.fs
      notifications := st.notifications ++ ["Recording cancelled"]
      transcribeCalls := 0, pastes := [], signaled := st.signaled }
  else
    { fs := r.2, notifications := [], transcribeCalls := 0, pastes := []
      signaled := false }

end WhisperPush

namespace WhisperPush.Daemon

/-! ## The macOS menu-bar daemon (`src/macos/menubar-daemon.py`) -/

/-- `State` of the daemon. -/
inductive DState
  | idle
  | loading
  | recording
  | processing
deriving DecidableEq

/-- The fields of `MenuBarApp` that drive hotkey classification and the
session state machine. `timerArmed` models `_hold_timer is not None`
(an outstanding `threading.Timer`); `hold_delay` is the configured
`hold_delay` in milliseconds (real time is not modelled: a cancelled timer
simply never delivers its `timerFired` event). -/
structure MenuBarApp where
  hotkey_mode : String
  modifiers : Nat
  key_code : Option Nat
  hold_modifiers : Nat
  hold_keycode : Option Nat
  hold_delay : Nat
  hold_active : Bool
  hold_pending : Bool
  timerArmed : Bool
  state : DState
deriving DecidableEq

/-- Externally visible actions of the daemon state machine. -/
inductive Out
  | startRec
  | stopTranscribe
deriving DecidableEq

/-- `start_recording` method: enter RECORDING and start the recorder. -/
def startRecording (a : MenuBarApp) : MenuBarApp × List Out :=
  ({ a with state := .recording }, [.startRec])

/-- `stop_and_transcribe` method: enter PROCESSING and hand the artifact to
the transcription thread. -/
def stopAndTranscribe (a : MenuBarApp) : MenuBarApp × List Out :=
  ({ a with state := .processing }, [.stopTranscribe])

/-- `toggle_recording` method: ignore the trigger while LOADING or
PROCESSING, start from IDLE, stop from RECORDING. -/
def toggleRecording (a : MenuBarApp) : MenuBarApp × List Out :=
  if a.state = .loading then (a, [])
  else if a.state = .processing then (a, [])
  else if a.state = .idle then startRecording a
  else if a.state = .recording then stopAndTranscribe a
  else (a, [])

/-- `_handle_global_hotkey`: any key-down while a hold activation is pending
cancels the pending gesture (and its timer) and returns at once; otherwise a
key-down matching the configured key code and modifier set toggles. -/
def handleGlobalHotkey (a : MenuBarApp) (code mods : Nat) :
    MenuBarApp × List Out :=
  if a.hold_pending then
    ({ a with hold_pending := false, hold_active := false
              timerArmed := false }, [])
  else if a.key_code = some code ∧ (mods &&& a.modifiers) = a.modifiers then
    toggleRecording a
  else (a, [])

/-- Body of `_handle_flags_changed` after the key-code gate: on a newly
satisfied modifier set from IDLE, arm the delayed activation; on release,
cancel a still-pending activation, or stop and transcribe when recording. -/
def flagsChangedBody (a : MenuBarApp) (mods : Nat) : MenuBarApp × List Out :=
  if (mods &&& a.hold_modifiers) = a.hold_modifiers then
    if a.hold_active then (a, [])
    else
      let a1 := { a with hold_active := true }
      if a.state = .idle then
        ({ a1 with hold_pending := true, timerArmed := true }, [])
      else (a1, [])
  else
    if a.hold_active then
      let a1 := { a with hold_active := false }
      if a.hold_pending then
        ({ a1 with hold_pending := false, timerArmed := false }, [])
      else if a.state = .recording then stopAndTranscribe a1
      else (a1, [])
    else (a, [])

/-- `_handle_flags_changed`: only in hold mode; when a specific modifier key
code is configured, events for other key codes are ignored. -/
def handleFlagsChanged (a : MenuBarApp) (code mods : Nat) :
    MenuBarApp × List Out :=
  if a.hotkey_mode ≠ "hold" then (a, [])
  else
    match a.hold_keycode with
    | some k => if code ≠ k then (a, []) else flagsChangedBody a mods
    | none => flagsChangedBody a mods

/-- `_delayed_start_recording`, run when the hold timer fires: start only if
the gesture is still pending, the modifiers are still held, and the app is
IDLE; in every case clear the pending flag and the timer. -/
def delayedStartRecording (a : MenuBarApp) : MenuBarApp × List Out :=
  if a.hold_pending ∧ a.hold_active ∧ a.state = .idle then
    startRecording { a with hold_pending := false, timerArmed := false }
  else ({ a with hold_pending := false, timerArmed := false }, [])

/-- Events delivered to the daemon. -/
inductive Ev
  | keyDown (code mods : Nat)
  | flagsChanged (code mods : Nat)
  | timerFired
deriving DecidableEq

/-- Dispatch one event. -/
def step (a : MenuBarApp) : Ev → MenuBarApp × List Out
  | .keyDown c m => handleGlobalHotkey a c m
  | .flagsChanged c m => handleFlagsChanged a c m
  | .timerFired => delayedStartRecording a

/-- Run a sequence of events, accumulating the emitted actions. -/
def run (a : MenuBarApp) : List Ev → MenuBarApp × List Out
  | [] => (a, [])
  | e :: es =>
    let r := step a e
    let r2 := run r.1 es
    (r2.1, r.2 ++ r2.2)

/-- The in-memory `AudioRecorder`: whether the callback is appending, and
the accumulated audio chunks. -/
structure Recorder where
  recording : Bool
  audioData : List Int
deriving DecidableEq

/-- `AudioRecorder.cancel`: stop the stream and drop the buffered audio
without writing any file. -/
def Recorder.cancel (r : Recorder) : Recorder :=
  { r with recording := false, audioData := [] }

/-- `cancelRecording_` menu action: only acts while RECORDING; cancels the
recorder and returns to IDLE with no transcription. -/
def cancelRecording (a : MenuBarApp) (r : Recorder) : MenuBarApp × Recorder :=
  if a.state = .recording then ({ a with state := .idle }, r.cancel)
  else (a, r)

end WhisperPush.Daemon

namespace WhisperPush

/-! ## Lemmas about stripping and pid parsing -/

theorem head?_dropWhile_false (p : Char → Bool) (l : List Char) {x : Char}
    (h : (l.dropWhile p).head? = some x) : p x = false := by
  induction l with
  | nil => simp [List.dropWhile] at h
  | cons a t ih =>
    rw [List.dropWhile_cons] at h
    by_cases hp : p a = true
    · rw [if_pos hp] at h
      exact ih h
    · rw [if_neg hp] at h
      simp only [List.head?_cons, Option.some.injEq] at h
      subst h
      exact Bool.eq_false_iff.mpr hp

theorem dropWhile_eq_self_of_head? (p : Char → Bool) (l : List Char)
    (h : ∀ x, l.head? = some x → p x = false) : l.dropWhile p = l := by
  cases l with
  | nil => rfl
  | cons a t =>
    rw [List.dropWhile_cons, if_neg]
    simp [h a rfl]

theorem head?_of_isPrefix {l m : List Char} {c : Char}
    (h : l <+: m) (hc : l.head? = some c) : m.head? = some c := by
  rcases h with ⟨u, rfl⟩
  cases l with
  | nil => simp at hc
  | cons a t => simpa using hc

/-- The head of a stripped list is not whitespace. -/
theorem stripChars_head (l : List Char) {c : Char}
    (h : (stripChars l).head? = some c) : isWs c = false := by
  have hpre : stripChars l <+: l.dropWhile isWs := by
    unfold stripChars dropTrailing
    have := List.dropWhile_suffix (l := (l.dropWhile isWs).reverse) isWs
    rw [← List.reverse_prefix] at this
    simpa using this
  exact head?_dropWhile_false isWs l (head?_of_isPrefix hpre h)

/-- The last element of a stripped list is not whitespace. -/
theorem stripChars_getLast (l : List Char) {c : Char}
    (h : (stripChars l).getLast? = some c) : isWs c = false := by
  unfold stripChars dropTrailing at h
  rw [List.getLast?_reverse] at h
  exact head?_dropWhile_false isWs _ h

/-- A list without leading or trailing whitespace is a strip fixpoint. -/
theorem stripChars_eq_self (l : List Char)
    (hh : ∀ c, l.head? = some c → isWs c = false)
    (hl : ∀ c, l.getLast? = some c → isWs c = false) :
    stripChars l = l := by
  unfold stripChars dropTrailing
  rw [dropWhile_eq_self_of_head? isWs l hh]
  rw [dropWhile_eq_self_of_head? isWs l.reverse
    (fun c hc => hl c (by rwa [List.head?_reverse] at hc))]
  exact List.reverse_reverse l

/-- Stripping is idempotent. -/
theorem stripChars_idem (l : List Char) :
    stripChars (stripChars l) = stripChars l :=
  stripChars_eq_self _ (fun _ h => stripChars_head l h)
    (fun _ h => stripChars_getLast l h)

theorem pystrip_idem (s : String) : pystrip (pystrip s) = pystrip s :=
  congrArg String.mk (stripChars_idem s.data)

/-- Stripping a leading space strips the rest. -/
theorem stripChars_cons_space (l : List Char) :
    stripChars (' ' :: l) = stripChars l := by
  unfold stripChars
  simp [List.dropWhile_cons, isWs]

theorem pystrip_space_append (s : String) :
    pystrip (" " ++ s) = pystrip s :=
  congrArg String.mk (stripChars_cons_space s.data)

theorem isWs_false_of_isDigit (c : Char) (h : c.isDigit = true) :
    isWs c = false := by
  by_contra hw
  have hw' : isWs c = true := by
    cases hws : isWs c
    · exact absurd hws hw
    · rfl
  simp only [isWs, Bool.or_eq_true, beq_iff_eq] at hw'
  rcases hw' with ((((rfl | rfl) | rfl) | rfl) | rfl) | rfl <;>
    simp [Char.isDigit] at h

theorem stripChars_eq_self_of_digits (l : List Char)
    (h : ∀ c ∈ l, c.isDigit = true) : stripChars l = l := by
  apply stripChars_eq_self
  · intro c hc
    exact isWs_false_of_isDigit c (h c (List.mem_of_mem_head? hc))
  · intro c hc
    exact isWs_false_of_isDigit c (h c (List.mem_of_mem_getLast? hc))

theorem digitsToNat_append (l : List Char) (c : Char) :
    digitsToNat (l ++ [c]) = 10 * digitsToNat l + digitVal c := by
  simp [digitsToNat, List.foldl_append]

theorem digitVal_digitChar (m : Nat) (h : m < 10) :
    digitVal (Nat.digitChar m) = m := by
  interval_cases m <;> decide

theorem isDigit_digitChar (m : Nat) (h : m < 10) :
    (Nat.digitChar m).isDigit = true := by
  interval_cases m <;> decide

theorem natDigitsAux_spec :
    ∀ fuel n, n < fuel →
      natDigitsAux fuel n ≠ [] ∧
      (∀ c ∈ natDigitsAux fuel n, c.isDigit = true) ∧
      digitsToNat (natDigitsAux fuel n) = n := by
  intro fuel
  induction fuel with
  | zero => intro n h; omega
  | succ f ih =>
    intro n hb
    by_cases h10 : n < 10
    · refine ⟨by simp [natDigitsAux, h10], ?_, ?_⟩
      · intro c hc
        simp only [natDigitsAux, if_pos h10, List.mem_singleton] at hc
        subst hc
        exact isDigit_digitChar n h10
      · simp only [natDigitsAux, if_pos h10, digitsToNat, List.foldl_cons,
          List.foldl_nil]
        simpa using digitVal_digitChar n h10
    · have hn : 10 ≤ n := Nat.le_of_not_lt h10
      have hdiv : n / 10 < f := by
        have h1 : n / 10 < n := Nat.div_lt_self (by omega) (by omega)
        omega
      obtain ⟨hne, hdig, hval⟩ := ih (n / 10) hdiv
      refine ⟨?_, ?_, ?_⟩
      · simp [natDigitsAux, h10]
      · intro c hc
        simp only [natDigitsAux, if_neg h10, List.mem_append,
          List.mem_singleton] at hc
        rcases hc with hc | rfl
        · exact hdig c hc
        · exact isDigit_digitChar _ (Nat.mod_lt _ (by omega))
      · rw [natDigitsAux, if_neg h10, digitsToNat_append, hval,
          digitVal_digitChar _ (Nat.mod_lt _ (by omega))]
        exact Nat.div_add_mod n 10

/-- The pid written by `start_recording` parses back to itself. -/
theorem parsePid_pidStr (n : Nat) : parsePid (pidStr n) = some n := by
  obtain ⟨hne, hdig, hval⟩ := natDigitsAux_spec (n + 1) n (Nat.lt_succ_self n)
  unfold parsePid pidStr
  simp only
  rw [stripChars_eq_self_of_digits _ hdig]
  rw [if_pos ⟨hne, by simpa [List.all_eq_true] using hdig⟩, hval]

end WhisperPush

namespace WhisperPush

/-! ## Shared concrete instances and reduction lemmas -/

/-- `DEFAULT_CONFIG` of the CLI. -/
def defaultConfig : Config :=
  { language := "auto", notifications := true, sound_feedback := true
    beam_size := 5, debug := false }

/-- The exit-poll loop performs at most `fuel` probes. -/
theorem pollCount_le (obs : Nat → Bool) :
    ∀ fuel i, pollCount obs fuel i ≤ fuel := by
  intro fuel
  induction fuel with
  | zero => intro i; simp [pollCount]
  | succ f ih =>
    intro i
    by_cases h : obs i = true
    · have := ih (i + 1)
      simp only [pollCount, h, if_true]
      omega
    · simp [pollCount, h]

theorem stop_recording_viable (cfg : Config) (sig obs : Nat → Bool) (fs : FS)
    (c : String) (hc : fs.lockFile = some c) :
    (stop_recording cfg sig obs fs).viable = audioViable fs := by
  simp only [stop_recording, hc]
  rfl

theorem stop_recording_fs (cfg : Config) (sig obs : Nat → Bool) (fs : FS)
    (c : String) (hc : fs.lockFile = some c) :
    (stop_recording cfg sig obs fs).fs = { fs with lockFile := none } := by
  simp only [stop_recording, hc]

theorem stop_recording_notes (cfg : Config) (sig obs : Nat → Bool) (fs : FS)
    (c : String) (hc : fs.lockFile = some c) :
    (stop_recording cfg sig obs fs).notifications =
      if cfg.notifications then ["Processing..."] else [] := by
  simp only [stop_recording, hc]

theorem stop_recording_signaled (cfg : Config) (sig obs : Nat → Bool) (fs : FS)
    (c : String) (p : Nat)
    (hc : fs.lockFile = some c) (hp : parsePid c = some p)
    (hs : sig p = true) :
    (stop_recording cfg sig obs fs).signaled = true := by
  simp only [stop_recording, hc, hp, hs, if_true]

theorem is_recording_held (sig : Nat → Bool) (fs : FS) (c : String) (p : Nat)
    (hc : fs.lockFile = some c) (hp : parsePid c = some p)
    (hs : sig p = true) :
    is_recording sig fs = (true, fs) := by
  simp [is_recording, hc, hp, hs]

/-! ## Claim theorems -/

/-- Claim C2: for a lock file whose content names a non-existent or
unparsable process id, `is_recording` returns false and removes the lock
file, and a second run returns false again and leaves the filesystem
unchanged (no lock file). -/
theorem C2_stale_lock_self_healing (sig : Nat → Bool) (fs : FS) (c : String)
    (hc : fs.lockFile = some c)
    (hbad : parsePid c = none ∨ ∃ p, parsePid c = some p ∧ sig p = false) :
    is_recording sig fs = (false, { fs with lockFile := none }) ∧
    is_recording sig { fs with lockFile := none } =
      (false, { fs with lockFile := none }) := by
  constructor
  · rcases hbad with hn | ⟨p, hp, hs⟩
    · simp [is_recording, hc, hn]
    · simp [is_recording, hc, hp, hs]
  · simp [is_recording]

/-- Witness for C2 at a lock naming the dead pid 42. -/
theorem C2_witness :
    is_recording (fun _ => false) ⟨some "42", none⟩ =
      (false, { FS.mk (some "42") none with lockFile := none }) ∧
    is_recording (fun _ => false)
        { FS.mk (some "42") none with lockFile := none } =
      (false, { FS.mk (some "42") none with lockFile := none }) :=
  C2_stale_lock_self_healing (fun _ => false) ⟨some "42", none⟩ "42" rfl
    (Or.inr ⟨42, by decide, rfl⟩)

/-- Claim C9: once the graceful interrupt is sent, `stop_recording` probes
process exit at most 20 times (100 ms sleeps, a 2000 ms ceiling), and for
every liveness history it proceeds to delete the lock and report the
artifact's viability — never an unbounded wait. -/
theorem C9_stop_bounded_polling (cfg : Config) (sig obs : Nat → Bool)
    (fs : FS) (c : String) (hc : fs.lockFile = some c) :
    (stop_recording cfg sig obs fs).polls ≤ 20 ∧
    100 * (stop_recording cfg sig obs fs).polls ≤ 2000 ∧
    (stop_recording cfg sig obs fs).fs.lockFile = none ∧
    (stop_recording cfg sig obs fs).viable = audioViable fs := by
  have hp : (stop_recording cfg sig obs fs).polls ≤ 20 := by
    simp only [stop_recording, hc]
    rcases hpc : parsePid c with _ | p
    · simp
    · by_cases hs : sig p = true
      · simpa [hs] using pollCount_le obs 20 0
      · simp [hs]
  refine ⟨hp, by omega, ?_, stop_recording_viable cfg sig obs fs c hc⟩
  rw [stop_recording_fs cfg sig obs fs c hc]

/-- Witness for C9: a capture process that never exits is probed exactly 20
times and stop still proceeds. -/
theorem C9_witness :
    (stop_recording defaultConfig (fun _ => true) (fun _ => true)
      ⟨some "7", some 100⟩).polls ≤ 20 ∧
    100 * (stop_recording defaultConfig (fun _ => true) (fun _ => true)
      ⟨some "7", some 100⟩).polls ≤ 2000 ∧
    (stop_recording defaultConfig (fun _ => true) (fun _ => true)
      ⟨some "7", some 100⟩).fs.lockFile = none ∧
    (stop_recording defaultConfig (fun _ => true) (fun _ => true)
      ⟨some "7", some 100⟩).viable = audioViable ⟨some "7", some 100⟩ :=
  C9_stop_bounded_polling defaultConfig (fun _ => true) (fun _ => true)
    ⟨some "7", some 100⟩ "7" rfl

/-- Counterexample to claim C8: a controller with pid 100 spawns the capture
subprocess with pid 200; the lock file records 200, the capture subprocess's
pid, not 100, the pid of the process that started the capture. -/
theorem C8_counterexample :
    (start_recording defaultConfig 100 200 ⟨none, none⟩).fs.lockFile ≠
      some (pidStr 100) ∧
    (start_recording defaultConfig 100 200 ⟨none, none⟩).fs.lockFile =
      some (pidStr 200) := by
  exact ⟨by decide, rfl⟩

/-- Amended claim C8: whenever recording starts, the lock file contains the
decimal pid of the capture subprocess itself; that pid parses back exactly,
so the lock's liveness check (and the later SIGINT) refer to the capture
subprocess's identity. -/
theorem C8_lock_holds_capture_pid (cfg : Config) (selfPid capturePid : Nat)
    (fs : FS) (sig : Nat → Bool) (hs : sig capturePid = true) :
    (start_recording cfg selfPid capturePid fs).fs.lockFile =
      some (pidStr capturePid) ∧
    parsePid (pidStr capturePid) = some capturePid ∧
    (is_recording sig (start_recording cfg selfPid capturePid fs).fs).1 =
      true := by
  refine ⟨rfl, parsePid_pidStr capturePid, ?_⟩
  simp [is_recording, start_recording, parsePid_pidStr, hs]

/-- Witness for C8's amended claim at controller pid 100, capture pid 200. -/
theorem C8_witness :
    (start_recording defaultConfig 100 200 ⟨none, none⟩).fs.lockFile =
      some (pidStr 200) ∧
    parsePid (pidStr 200) = some 200 ∧
    (is_recording (fun p => p == 200)
      (start_recording defaultConfig 100 200 ⟨none, none⟩).fs).1 = true :=
  C8_lock_holds_capture_pid defaultConfig 100 200 ⟨none, none⟩
    (fun p => p == 200) (by decide)

/-- Counterexample to claim C1: with an empty pre-session clipboard and one
successfully pasted segment, `finish` does not restore the pre-session value:
the clipboard ends as "hello", not "". -/
theorem C1_counterexample :
    (transcribe_and_type "" ⟨["hello"], false⟩).pastes = ["hello"] ∧
    (transcribe_and_type "" ⟨["hello"], false⟩).clipboard = "hello" ∧
    ("hello" : String) ≠ "" := by
  exact ⟨rfl, rfl, by decide⟩

/-- Amended claim C1: whenever the pre-session clipboard snapshot is
non-empty, `finish` restores it exactly — with zero segments, with all
segments emitted, and on engine failure mid-stream alike — and on engine
failure the already-pasted segments remain exactly those of a successful
run over the same yielded prefix. (When the snapshot is empty the code
skips the restore and the clipboard keeps the last pasted text.) -/
theorem C1_clipboard_restore (clip0 : String) (run : EngineRun)
    (h : clip0 ≠ "") :
    (transcribe_and_type clip0 run).clipboard = clip0 ∧
    (transcribe_and_type clip0 run).pastes =
      (transcribe_and_type clip0 { run with failed := false }).pastes := by
  refine ⟨?_, rfl⟩
  simp [transcribe_and_type, restoreClipboard, h]

/-- Witness for C1's amended claim: non-empty snapshot "prev", engine
failure after one segment. -/
theorem C1_witness :
    (transcribe_and_type "prev" ⟨["hi"], true⟩).clipboard = "prev" ∧
    (transcribe_and_type "prev" ⟨["hi"], true⟩).pastes =
      (transcribe_and_type "prev" ⟨["hi"], false⟩).pastes :=
  C1_clipboard_restore "prev" ⟨["hi"], true⟩ (by decide)

/-- Claim C5: for the stream yielding exactly hello, world, today, the paste
operation receives "hello", " world", " today" in that order, the finish
step then restores the clipboard snapshot, and the accumulated text returned
for the notification is "hello world today". -/
theorem C5_three_segments (clip0 : String) (h : clip0 ≠ "") :
    (transcribe_and_type clip0 ⟨["hello", "world", "today"], false⟩).pastes =
      ["hello", " world", " today"] ∧
    (transcribe_and_type clip0 ⟨["hello", "world", "today"], false⟩).result =
      some "hello world today" ∧
    (transcribe_and_type clip0
      ⟨["hello", "world", "today"], false⟩).clipboard = clip0 := by
  refine ⟨rfl, rfl, ?_⟩
  simp [transcribe_and_type, restoreClipboard, h]

/-- Witness for C5 with snapshot "prev". -/
theorem C5_witness :
    (transcribe_and_type "prev" ⟨["hello", "world", "today"], false⟩).pastes =
      ["hello", " world", " today"] ∧
    (transcribe_and_type "prev"
      ⟨["hello", "world", "today"], false⟩).result =
      some "hello world today" ∧
    (transcribe_and_type "prev"
      ⟨["hello", "world", "today"], false⟩).clipboard = "prev" :=
  C5_three_segments "prev" (by decide)

end WhisperPush

namespace WhisperPush

/-- When the lock reports a recording in progress, the toggle invocation
takes the stop path, whichever sub-branch it then falls into. -/
theorem cliToggle_stop_branch (cfg : Config) (selfPid capturePid : Nat)
    (sig obs : Nat → Bool) (run : EngineRun) (clip0 : String) (fs : FS)
    (h : (is_recording sig fs).1 = true) :
    (cliToggle cfg selfPid capturePid sig obs run clip0 fs).startedCapture =
      false ∧
    (cliToggle cfg selfPid capturePid sig obs run clip0 fs).stoppedViaLock =
      true := by
  simp only [cliToggle, h, if_true]
  constructor <;>
    · split
      · split
        · rfl
        · split <;> rfl
      · rfl

/-- Counterexample to claim C4: lock held by live capture pid 7 but no audio
artifact; the toggle invocation skips transcription and returns to idle, yet
the only notification raised is "Processing..." — no "no speech"
notification is emitted on this path. -/
theorem C4_counterexample :
    (cliToggle defaultConfig 1 2 (fun p => p == 7) (fun _ => false)
      ⟨[], false⟩ "old" ⟨some "7", none⟩).transcribeCalls = 0 ∧
    (cliToggle defaultConfig 1 2 (fun p => p == 7) (fun _ => false)
      ⟨[], false⟩ "old" ⟨some "7", none⟩).fs.lockFile = none ∧
    (cliToggle defaultConfig 1 2 (fun p => p == 7) (fun _ => false)
      ⟨[], false⟩ "old" ⟨some "7", none⟩).notifications =
      ["Processing..."] ∧
    "No speech detected" ∉
      (cliToggle defaultConfig 1 2 (fun p => p == 7) (fun _ => false)
        ⟨[], false⟩ "old" ⟨some "7", none⟩).notifications := by
  refine ⟨by decide, by decide, by decide, by decide⟩

/-- Amended claim C4: for every stop transition whose audio artifact is
absent or ≤ 44 bytes, `stop_recording` reports no viable audio, the session
returns to idle (lock removed), the transcription engine is never invoked
and nothing is pasted; however no "no speech" notification is raised on
this path — the invocation ends silently after "Processing...". -/
theorem C4_no_viable_audio_skips_engine (cfg : Config)
    (selfPid capturePid : Nat) (sig obs : Nat → Bool) (run : EngineRun)
    (clip0 : String) (fs : FS) (c : String) (p : Nat)
    (hc : fs.lockFile = some c) (hp : parsePid c = some p)
    (hs : sig p = true) (hv : audioViable fs = false) :
    (stop_recording cfg sig obs fs).viable = false ∧
    (cliToggle cfg selfPid capturePid sig obs run clip0 fs).transcribeCalls =
      0 ∧
    (cliToggle cfg selfPid capturePid sig obs run clip0 fs).pastes = [] ∧
    (cliToggle cfg selfPid capturePid sig obs run clip0 fs).fs.lockFile =
      none ∧
    (cliToggle cfg selfPid capturePid sig obs run clip0 fs).notifications =
      (if cfg.notifications then ["Processing..."] else []) ∧
    "No speech detected" ∉
      (cliToggle cfg selfPid capturePid sig obs run clip0 fs).notifications
    := by
  have hrec : is_recording sig fs = (true, fs) :=
    is_recording_held sig fs c p hc hp hs
  have hviable : (stop_recording cfg sig obs fs).viable = false := by
    rw [stop_recording_viable cfg sig obs fs c hc]
    exact hv
  have hred : cliToggle cfg selfPid capturePid sig obs run clip0 fs =
      { startedCapture := false, stoppedViaLock := true, transcribeCalls := 0
        pastes := [], clipboard := clip0
        notifications := (stop_recording cfg sig obs fs).notifications
        sounds := [], fs := (stop_recording cfg sig obs fs).fs
        exitCode := 0 } := by
    simp [cliToggle, hrec, hviable]
  have hnotes : (stop_recording cfg sig obs fs).notifications =
      if cfg.notifications then ["Processing..."] else [] :=
    stop_recording_notes cfg sig obs fs c hc
  refine ⟨hviable, by rw [hred], by rw [hred], ?_, ?_, ?_⟩
  · rw [hred]
    show (stop_recording cfg sig obs fs).fs.lockFile = none
    rw [stop_recording_fs cfg sig obs fs c hc]
  · rw [hred]
    exact hnotes
  · rw [hred]
    show "No speech detected" ∉ (stop_recording cfg sig obs fs).notifications
    rw [hnotes]
    by_cases hn : cfg.notifications = true
    · rw [if_pos hn]
      decide
    · rw [if_neg hn]
      decide

/-- Witness for C4's amended claim: lock names live pid 7, artifact absent. -/
theorem C4_witness :
    (stop_recording defaultConfig (fun p => p == 7) (fun _ => false)
      ⟨some "7", none⟩).viable = false ∧
    (cliToggle defaultConfig 1 2 (fun p => p == 7) (fun _ => false)
      ⟨[], false⟩ "old" ⟨some "7", none⟩).transcribeCalls = 0 ∧
    (cliToggle defaultConfig 1 2 (fun p => p == 7) (fun _ => false)
      ⟨[], false⟩ "old" ⟨some "7", none⟩).pastes = [] ∧
    (cliToggle defaultConfig 1 2 (fun p => p == 7) (fun _ => false)
      ⟨[], false⟩ "old" ⟨some "7", none⟩).fs.lockFile = none ∧
    (cliToggle defaultConfig 1 2 (fun p => p == 7) (fun _ => false)
      ⟨[], false⟩ "old" ⟨some "7", none⟩).notifications =
      (if defaultConfig.notifications then ["Processing..."] else []) ∧
    "No speech detected" ∉
      (cliToggle defaultConfig 1 2 (fun p => p == 7) (fun _ => false)
        ⟨[], false⟩ "old" ⟨some "7", none⟩).notifications :=
  C4_no_viable_audio_skips_engine defaultConfig 1 2 (fun p => p == 7)
    (fun _ => false) ⟨[], false⟩ "old" ⟨some "7", none⟩ "7" 7 rfl (by decide)
    (by decide) (by decide)

end WhisperPush

namespace WhisperPush

/-- Claim C6: invocation one (a process with pid `p1`) starts recording and
writes the capture pid into the lock; invocation two — any other process
instance `p2` — observes Recording via the lock alone and takes the
stop-and-transcribe path itself. The caller's own pid plays no role in the
protocol: the conclusion holds for every `p1` and `p2`. -/
theorem C6_cross_process_stop (cfg : Config) (p1 p2 q q2 : Nat)
    (sig obs : Nat → Bool) (run : EngineRun) (clip0 : String) (fs0 : FS)
    (h0 : fs0.lockFile = none) (hq : sig q = true) :
    (cliToggle cfg p1 q sig obs run clip0 fs0).startedCapture = true ∧
    (cliToggle cfg p1 q sig obs run clip0 fs0).fs.lockFile =
      some (pidStr q) ∧
    (cliToggle cfg p2 q2 sig obs run clip0
      (cliToggle cfg p1 q sig obs run clip0 fs0).fs).startedCapture =
      false ∧
    (cliToggle cfg p2 q2 sig obs run clip0
      (cliToggle cfg p1 q sig obs run clip0 fs0).fs).stoppedViaLock =
      true := by
  have hrec0 : is_recording sig fs0 = (false, fs0) := by
    simp [is_recording, h0]
  have h1 : cliToggle cfg p1 q sig obs run clip0 fs0 =
      { startedCapture := true, stoppedViaLock := false, transcribeCalls := 0
        pastes := [], clipboard := clip0
        notifications := (start_recording cfg p1 q fs0).notifications
        sounds := (start_recording cfg p1 q fs0).sounds
        fs := (start_recording cfg p1 q fs0).fs
        exitCode := 0 } := by
    simp [cliToggle, hrec0]
  have hfs1 : (cliToggle cfg p1 q sig obs run clip0 fs0).fs.lockFile =
      some (pidStr q) := by
    rw [h1]
    rfl
  have hrec2 : (is_recording sig
      (cliToggle cfg p1 q sig obs run clip0 fs0).fs).1 = true := by
    simp [is_recording, hfs1, parsePid_pidStr, hq]
  obtain ⟨hb1, hb2⟩ := cliToggle_stop_branch cfg p2 q2 sig obs run clip0
    (cliToggle cfg p1 q sig obs run clip0 fs0).fs hrec2
  exact ⟨by rw [h1], hfs1, hb1, hb2⟩

/-- Witness for C6: pids 101 and 202 for the two CLI processes, capture pid
7 alive throughout. -/
theorem C6_witness :
    (cliToggle defaultConfig 101 7 (fun p => p == 7) (fun _ => false)
      ⟨[], false⟩ "old" ⟨none, none⟩).startedCapture = true ∧
    (cliToggle defaultConfig 101 7 (fun p => p == 7) (fun _ => false)
      ⟨[], false⟩ "old" ⟨none, none⟩).fs.lockFile = some (pidStr 7) ∧
    (cliToggle defaultConfig 202 9 (fun p => p == 7) (fun _ => false)
      ⟨[], false⟩ "old"
      (cliToggle defaultConfig 101 7 (fun p => p == 7) (fun _ => false)
        ⟨[], false⟩ "old" ⟨none, none⟩).fs).startedCapture = false ∧
    (cliToggle defaultConfig 202 9 (fun p => p == 7) (fun _ => false)
      ⟨[], false⟩ "old"
      (cliToggle defaultConfig 101 7 (fun p => p == 7) (fun _ => false)
        ⟨[], false⟩ "old" ⟨none, none⟩).fs).stoppedViaLock = true :=
  C6_cross_process_stop defaultConfig 101 202 7 9 (fun p => p == 7)
    (fun _ => false) ⟨[], false⟩ "old" ⟨none, none⟩ rfl (by decide)

/-- Counterexample to claim C7: a CLI `--stop` cancellation with a 1000-byte
artifact on disk releases the lock but does not discard the artifact — the
audio file is still present afterwards. -/
theorem C7_counterexample :
    (cliForceStop defaultConfig (fun p => p == 7) (fun _ => false)
      ⟨some "7", some 1000⟩).fs.lockFile = none ∧
    (cliForceStop defaultConfig (fun p => p == 7) (fun _ => false)
      ⟨some "7", some 1000⟩).fs.audioFile = some 1000 := by
  refine ⟨by decide, by decide⟩

/-- Amended claim C7: explicit cancellation stops the capture through the
same signal path and releases the lock, and no transcription and no paste
ever occur; but the CLI leaves the audio artifact on disk (it is only
removed when the next recording starts) and the viability check still runs
with its result discarded, while the daemon's Cancel drops the buffered
audio and returns to idle. -/
theorem C7_cancel_no_transcription (cfg : Config) (sig obs : Nat → Bool)
    (fs : FS) (c : String) (p : Nat) (a : Daemon.MenuBarApp)
    (r : Daemon.Recorder)
    (hc : fs.lockFile = some c) (hp : parsePid c = some p)
    (hs : sig p = true) (ha : a.state = Daemon.DState.recording) :
    (cliForceStop cfg sig obs fs).signaled = true ∧
    (cliForceStop cfg sig obs fs).fs.lockFile = none ∧
    (cliForceStop cfg sig obs fs).fs.audioFile = fs.audioFile ∧
    (cliForceStop cfg sig obs fs).transcribeCalls = 0 ∧
    (cliForceStop cfg sig obs fs).pastes = [] ∧
    (Daemon.cancelRecording a r).2.audioData = [] ∧
    (Daemon.cancelRecording a r).1.state = Daemon.DState.idle := by
  have hrec : is_recording sig fs = (true, fs) :=
    is_recording_held sig fs c p hc hp hs
  have hred : cliForceStop cfg sig obs fs =
      { fs := (stop_recording cfg sig obs fs).fs
        notifications := (stop_recording cfg sig obs fs).notifications ++
          ["Recording cancelled"]
        transcribeCalls := 0, pastes := []
        signaled := (stop_recording cfg sig obs fs).signaled } := by
    simp [cliForceStop, hrec]
  have hfs : (stop_recording cfg sig obs fs).fs =
      { fs with lockFile := none } :=
    stop_recording_fs cfg sig obs fs c hc
  refine ⟨?_, ?_, ?_, by rw [hred], by rw [hred], ?_, ?_⟩
  · rw [hred]
    exact stop_recording_signaled cfg sig obs fs c p hc hp hs
  · rw [hred]
    show (stop_recording cfg sig obs fs).fs.lockFile = none
    rw [hfs]
  · rw [hred]
    show (stop_recording cfg sig obs fs).fs.audioFile = fs.audioFile
    rw [hfs]
  · simp [Daemon.cancelRecording, ha, Daemon.Recorder.cancel]
  · simp [Daemon.cancelRecording, ha]

/-- Witness for C7's amended claim: lock names live pid 7, artifact of 1000
bytes, daemon recording with one buffered chunk. -/
theorem C7_witness :
    (cliForceStop defaultConfig (fun p => p == 7) (fun _ => false)
      ⟨some "7", some 1000⟩).signaled = true ∧
    (cliForceStop defaultConfig (fun p => p == 7) (fun _ => false)
      ⟨some "7", some 1000⟩).fs.lockFile = none ∧
    (cliForceStop defaultConfig (fun p => p == 7) (fun _ => false)
      ⟨some "7", some 1000⟩).fs.audioFile =
      (FS.mk (some "7") (some 1000)).audioFile ∧
    (cliForceStop defaultConfig (fun p => p == 7) (fun _ => false)
      ⟨some "7", some 1000⟩).transcribeCalls = 0 ∧
    (cliForceStop defaultConfig (fun p => p == 7) (fun _ => false)
      ⟨some "7", some 1000⟩).pastes = [] ∧
    (Daemon.cancelRecording
      { hotkey_mode := "hold", modifiers := 262144, key_code := none
        hold_modifiers := 262144, hold_keycode := none, hold_delay := 300
        hold_active := true, hold_pending := false, timerArmed := false
        state := Daemon.DState.recording }
      { recording := true, audioData := [5] }).2.audioData = [] ∧
    (Daemon.cancelRecording
      { hotkey_mode := "hold", modifiers := 262144, key_code := none
        hold_modifiers := 262144, hold_keycode := none, hold_delay := 300
        hold_active := true, hold_pending := false, timerArmed := false
        state := Daemon.DState.recording }
      { recording := true, audioData := [5] }).1.state =
      Daemon.DState.idle :=
  C7_cancel_no_transcription defaultConfig (fun p => p == 7) (fun _ => false)
    ⟨some "7", some 1000⟩ "7" 7
    { hotkey_mode := "hold", modifiers := 262144, key_code := none
      hold_modifiers := 262144, hold_keycode := none, hold_delay := 300
      hold_active := true, hold_pending := false, timerArmed := false
      state := Daemon.DState.recording }
    { recording := true, audioData := [5] }
    rfl (by decide) (by decide) rfl

end WhisperPush

namespace WhisperPush

/-- Every segment yielded by `transcribe_segments` is non-empty and is a
strip fixpoint (no leading or trailing whitespace). -/
theorem transcribe_segments_mem (raw : List String) {t : String}
    (ht : t ∈ transcribe_segments raw) : t ≠ "" ∧ pystrip t = t := by
  rw [transcribe_segments, List.mem_filterMap] at ht
  obtain ⟨a, _, hfa⟩ := ht
  simp only at hfa
  by_cases h : pystrip a = ""
  · rw [if_pos h] at hfa
    exact absurd hfa (by simp)
  · rw [if_neg h] at hfa
    obtain rfl := Option.some.injEq _ _ ▸ hfa
    have := pystrip_idem a
    exact ⟨h, this⟩

/-- Elements of the paste trace are the first segment or a later segment
with one leading space. -/
theorem mem_pasteTexts {p : String} {segs : List String}
    (h : p ∈ pasteTexts segs) : ∃ t ∈ segs, p = t ∨ p = " " ++ t := by
  cases segs with
  | nil => simp [pasteTexts] at h
  | cons s rest =>
    simp only [pasteTexts, List.mem_cons, List.mem_map] at h
    rcases h with rfl | ⟨t, ht, rfl⟩
    · exact ⟨p, by simp, Or.inl rfl⟩
    · exact ⟨t, by simp [ht], Or.inr rfl⟩

/-- Claim C10: every yielded segment is a non-empty string with no leading
or trailing whitespace; the paste operation never receives an empty or
whitespace-only text; and an utterance whose raw segments are all blank
yields the empty stream. -/
theorem C10_segments_nonblank (raw : List String) :
    (∀ t ∈ transcribe_segments raw, t ≠ "" ∧ pystrip t = t) ∧
    (∀ (clip0 : String) (run : EngineRun), run.yielded = raw →
      ∀ p ∈ (transcribe_and_type clip0 run).pastes, pystrip p ≠ "") ∧
    ((∀ s ∈ raw, pystrip s = "") → transcribe_segments raw = []) := by
  refine ⟨fun t ht => transcribe_segments_mem raw ht, ?_, ?_⟩
  · intro clip0 run hr p hp
    have hp' : p ∈ pasteTexts (transcribe_segments raw) := by
      rw [← hr]
      exact hp
    obtain ⟨t, ht, hcase⟩ := mem_pasteTexts hp'
    obtain ⟨hne, hfix⟩ := transcribe_segments_mem raw ht
    rcases hcase with rfl | rfl
    · rw [hfix]
      exact hne
    · rw [pystrip_space_append, hfix]
      exact hne
  · intro h
    rw [transcribe_segments]
    rw [List.filterMap_eq_nil_iff]
    intro a ha
    simp [h a ha]

/-- Witness for C10: a padded two-segment utterance and an all-blank one. -/
theorem C10_witness :
    (("hello" : String) ≠ "" ∧ pystrip "hello" = "hello") ∧
    pystrip " world" ≠ "" ∧
    transcribe_segments ["   ", ""] = [] := by
  refine ⟨(C10_segments_nonblank ["  hello ", " world  "]).1 "hello"
    (by decide), ?_, (C10_segments_nonblank ["   ", ""]).2.2 (by decide)⟩
  exact (C10_segments_nonblank ["  hello ", " world  "]).2.1 "x"
    ⟨["  hello ", " world  "], false⟩ rfl " world" (by decide)

/-- Claim C3: in hold mode, from idle with no gesture in flight, a modifier
change that satisfies the hotkey arms the delayed activation; if any
unrelated key-down arrives before the activation timer fires, the gesture is
cancelled: no action is ever emitted — even if the timer event still fires —
and the daemon stays idle. Holds for every configured positive delay and
every interrupting key. -/
theorem C3_hold_interrupted (a : Daemon.MenuBarApp)
    (code mods icode imods : Nat)
    (hmode : a.hotkey_mode = "hold") (hstate : a.state = Daemon.DState.idle)
    (hact : a.hold_active = false) (hpend : a.hold_pending = false)
    (hdelay : 0 < a.hold_delay)
    (hgate : a.hold_keycode = none ∨ a.hold_keycode = some code)
    (hsat : (mods &&& a.hold_modifiers) = a.hold_modifiers) :
    (Daemon.run a [Daemon.Ev.flagsChanged code mods,
      Daemon.Ev.keyDown icode imods, Daemon.Ev.timerFired]).2 = [] ∧
    (Daemon.run a [Daemon.Ev.flagsChanged code mods,
      Daemon.Ev.keyDown icode imods, Daemon.Ev.timerFired]).1.state =
      Daemon.DState.idle := by
  have h1 : Daemon.handleFlagsChanged a code mods =
      ({ a with hold_active := true, hold_pending := true
                timerArmed := true }, []) := by
    rcases hgate with hg | hg <;>
      simp [Daemon.handleFlagsChanged, hmode, hg,
        Daemon.flagsChangedBody, hsat, hact, hstate]
  have h2 : Daemon.handleGlobalHotkey
      { a with hold_active := true, hold_pending := true, timerArmed := true }
      icode imods =
      ({ a with hold_active := false, hold_pending := false
                timerArmed := false }, []) := by
    simp [Daemon.handleGlobalHotkey]
  have h3 : Daemon.delayedStartRecording
      { a with hold_active := false, hold_pending := false
               timerArmed := false } =
      ({ a with hold_active := false, hold_pending := false
                timerArmed := false }, []) := by
    simp [Daemon.delayedStartRecording]
  rw [hstate] at h1 h2 h3
  constructor <;>
    simp [Daemon.run, Daemon.step, h1, h2, h3]

/-- Witness for C3: hold-Ctrl hotkey (left Ctrl key code 59, Control mask
0x40000, 300 ms delay) interrupted by the key-down of c (key code 8). -/
theorem C3_witness :
    (Daemon.run
      { hotkey_mode := "hold", modifiers := 262144, key_code := none
        hold_modifiers := 262144, hold_keycode := some 59, hold_delay := 300
        hold_active := false, hold_pending := false, timerArmed := false
        state := Daemon.DState.idle }
      [Daemon.Ev.flagsChanged 59 262144, Daemon.Ev.keyDown 8 262144,
        Daemon.Ev.timerFired]).2 = [] ∧
    (Daemon.run
      { hotkey_mode := "hold", modifiers := 262144, key_code := none
        hold_modifiers := 262144, hold_keycode := some 59, hold_delay := 300
        hold_active := false, hold_pending := false, timerArmed := false
        state := Daemon.DState.idle }
      [Daemon.Ev.flagsChanged 59 262144, Daemon.Ev.keyDown 8 262144,
        Daemon.Ev.timerFired]).1.state = Daemon.DState.idle :=
  C3_hold_interrupted
    { hotkey_mode := "hold", modifiers := 262144, key_code := none
      hold_modifiers := 262144, hold_keycode := some 59, hold_delay := 300
      hold_active := false, hold_pending := false, timerArmed := false
      state := Daemon.DState.idle }
    59 262144 8 262144 rfl rfl rfl rfl (by decide) (Or.inr rfl) (by decide)

end WhisperPush
